import Mathlib

/-!
Verification development for the stage-based calculation pipeline
(iotfunctions/pipeline.py).  The Python source is shallowly embedded:
dataframes become association lists of named columns of scalar values,
in-place pandas mutation becomes explicit threading or an explicit store,
and raised exceptions become Except values tagged with the exception class.
-/

/-- Scalar cell values of a dataframe.  `flt` is an integral float64 value
(all floats arising in the verified scenarios are integral), `nan` models
both NaN and None (the pandas null), `inf` and `ninf` model the two
infinities, `ts` models a datetime64 value. -/
inductive PyVal
  | int (i : Int)
  | flt (i : Int)
  | str (s : String)
  | bool (b : Bool)
  | ts (t : Nat)
  | nan
  | inf
  | ninf
  deriving DecidableEq, Repr

/-- pandas isnull: NaN/None are null; infinities are not. -/
def PyVal.isNull : PyVal → Bool
  | .nan => true
  | _ => false

/-- 2e replace([inf, -inf], nan) on a single value. -/
def PyVal.infToNan : PyVal → PyVal
  | .inf => .nan
  | .ninf => .nan
  | v => v

/-- A dataframe: ordered named columns.  The composite-key index levels of
the real dataframes (entity id, timestamp) are not part of `cols`, matching
pandas where `df.columns` excludes index levels. -/
structure DataFrame where
  cols : List (String × List PyVal)
  deriving DecidableEq, Repr

def DataFrame.columns (df : DataFrame) : List String := df.cols.map Prod.fst

def DataFrame.getCol (df : DataFrame) (c : String) : Option (List PyVal) :=
  (df.cols.find? (fun p => p.1 == c)).map Prod.snd

def DataFrame.nRows (df : DataFrame) : Nat :=
  match df.cols with
  | [] => 0
  | p :: _ => p.2.length

/-- pandas df.empty: true when either axis has length zero. -/
def DataFrame.isEmpty (df : DataFrame) : Bool :=
  df.cols.isEmpty || df.nRows == 0

/-- `df[c] = vs`: replace the column in place if present, else append it. -/
def DataFrame.setColumn (df : DataFrame) (c : String) (vs : List PyVal) : DataFrame :=
  if (df.cols.find? (fun p => p.1 == c)).isSome then
    ⟨df.cols.map (fun p => (p.1, if p.1 == c then vs else p.2))⟩
  else ⟨df.cols ++ [(c, vs)]⟩

/-- Whether the cell at column `c`, row `i` is null (missing cells count
as null, mirroring pandas alignment). -/
def DataFrame.cellIsNull (df : DataFrame) (c : String) (i : Nat) : Bool :=
  match df.getCol c with
  | some vs =>
    match vs[i]? with
    | some v => v.isNull
    | none => true
  | none => true

/-- Keep exactly the rows whose index satisfies `keep`; every column is
filtered by the same row mask. -/
def DataFrame.filterRows (df : DataFrame) (keep : Nat → Bool) : DataFrame :=
  ⟨df.cols.map (fun p =>
    (p.1, ((List.range df.nRows).filter keep).filterMap (fun i => p.2[i]?)))⟩

/-- df.replace([np.inf, -np.inf], np.nan). -/
def DataFrame.replaceInfNan (df : DataFrame) : DataFrame :=
  ⟨df.cols.map (fun p => (p.1, p.2.map PyVal.infToNan))⟩

def DataFrame.rowHasNull (df : DataFrame) (i : Nat) : Bool :=
  df.columns.any (fun c => df.cellIsNull c i)

/-- df.dropna(): drop every row containing at least one null, in any column. -/
def DataFrame.dropAnyNull (df : DataFrame) : DataFrame :=
  df.filterRows (fun i => !(df.rowHasNull i))

/-- df.dropna(how=all, subset=subset): drop the rows that are null in every
subset column; a row survives when some subset column is non-null there. -/
def DataFrame.dropAllNull (df : DataFrame) (subset : List String) : DataFrame :=
  df.filterRows (fun i => subset.any (fun c => !(df.cellIsNull c i)))

/-- The null-cleanup segment of CalcPipeline.execute (pipeline.py 261-278):
with the dropna flag, normalize infinities to null and drop any-null rows;
with the drop-all-null-rows parameter, drop the rows that are entirely null
across the columns not excluded (system columns plus custom exclusions). -/
def postNullCleanup (dropna dropAllFlag : Bool)
    (systemCols customExclude : List String) (df : DataFrame) : DataFrame :=
  let df1 := if dropna then (df.replaceInfNan).dropAnyNull else df
  if dropAllFlag then
    let exclude := systemCols ++ customExclude
    let subset := df1.columns.filter (fun x => !(exclude.contains x))
    df1.dropAllNull subset
  else df1

/-- Runtime dtypes of pandas columns, as far as the embedding needs them. -/
inductive Dtype
  | float64
  | int64
  | boolDt
  | datetime64
  | objectDt
  deriving DecidableEq, Repr

def Dtype.name : Dtype → String
  | .float64 => "float64"
  | .int64 => "int64"
  | .boolDt => "bool"
  | .datetime64 => "datetime64"
  | .objectDt => "object"

def PyVal.isNumericVal : PyVal → Bool
  | .int _ => true
  | .flt _ => true
  | .nan => true
  | .inf => true
  | .ninf => true
  | _ => false

/-- pandas dtype inference for a column of values. -/
def inferDtype (vs : List PyVal) : Dtype :=
  if (vs.all fun v => match v with | .bool _ => true | _ => false) && !vs.isEmpty then .boolDt
  else if (vs.all fun v => match v with | .int _ => true | _ => false) && !vs.isEmpty then .int64
  else if (vs.all PyVal.isNumericVal) && !vs.isEmpty then .float64
  else if (vs.all fun v => match v with | .ts _ => true | .nan => true | _ => false) && !vs.isEmpty then .datetime64
  else .objectDt

/-- pandas is-numeric-dtype: numeric and boolean dtypes count. -/
def isNumericDtype : Dtype → Bool
  | .int64 => true
  | .float64 => true
  | .boolDt => true
  | _ => false

/-- pandas is-string-dtype: the object dtype counts as string-like. -/
def isStringDtype : Dtype → Bool
  | .objectDt => true
  | _ => false

def isBoolDtype : Dtype → Bool
  | .boolDt => true
  | _ => false

def isDatetimeDtype : Dtype → Bool
  | .datetime64 => true
  | _ => false

/-- The numeric value of one decimal digit character. -/
def digitVal (c : Char) : Option Nat :=
  if c = '0' then some 0
  else if c = '1' then some 1
  else if c = '2' then some 2
  else if c = '3' then some 3
  else if c = '4' then some 4
  else if c = '5' then some 5
  else if c = '6' then some 6
  else if c = '7' then some 7
  else if c = '8' then some 8
  else if c = '9' then some 9
  else none

/-- Parse a non-empty all-digit character list as a natural number. -/
def parseNatList (cs : List Char) : Option Nat :=
  match cs with
  | [] => none
  | _ =>
    cs.foldl (fun acc c =>
      match acc, digitVal c with
      | some a, some d => some (a * 10 + d)
      | _, _ => none) (some 0)

/-- Numeric parse of a string, as float(s) does for the integral strings
representable here; anything else fails. -/
def parseNumStr (s : String) : Option Int :=
  match s.data with
  | '-' :: rest => (parseNatList rest).map (fun n => -(n : Int))
  | cs => (parseNatList cs).map (fun n => (n : Int))

/-- astype(float64) on one value; fails on unparseable strings and on
datetimes. -/
def castFloatVal : PyVal → Option PyVal
  | .int i => some (.flt i)
  | .flt i => some (.flt i)
  | .nan => some .nan
  | .inf => some .inf
  | .ninf => some .ninf
  | .bool b => some (.flt (if b then 1 else 0))
  | .str s => (parseNumStr s).map PyVal.flt
  | .ts _ => none

def astypeFloat (vs : List PyVal) : Option (List PyVal) := vs.mapM castFloatVal

def pyValToStr : PyVal → String
  | .int i => toString i
  | .flt i => toString i ++ ".0"
  | .str s => s
  | .bool b => if b then "True" else "False"
  | .ts t => toString t
  | .nan => "nan"
  | .inf => "inf"
  | .ninf => "-inf"

/-- astype(str): total in pandas, every value renders. -/
def astypeStr (vs : List PyVal) : List PyVal := vs.map (fun v => .str (pyValToStr v))

def parseDtStr (s : String) : Option Nat := parseNatList s.data

/-- pd.to-datetime on one value: datetimes pass through, integers are epoch
offsets, null stays null (NaT), datetime-like strings parse; booleans,
infinities and other strings fail. -/
def toDatetimeVal : PyVal → Option PyVal
  | .ts t => some (.ts t)
  | .int i => some (.ts i.natAbs)
  | .nan => some .nan
  | .str s => (parseDtStr s).map PyVal.ts
  | _ => none

def toDatetime (vs : List PyVal) : Option (List PyVal) := vs.mapM toDatetimeVal

/-- Python truthiness, as astype(bool) applies it elementwise. -/
def truthiness : PyVal → Bool
  | .int i => i != 0
  | .flt i => i != 0
  | .str s => s != ""
  | .bool b => b
  | .ts _ => true
  | .nan => true
  | .inf => true
  | .ninf => true

/-- astype(bool): total, elementwise truthiness. -/
def astypeBool (vs : List PyVal) : List PyVal := vs.map (fun v => .bool (truthiness v))

/-- A declared data item from the external metadata: name and declared
semantic column type (the source compares the columnType string against
NUMBER, LITERAL, TIMESTAMP, BOOLEAN). -/
structure DataItem where
  name : String
  columnType : String
  deriving DecidableEq, Repr

/-- One reconciliation attempt for a column against a declared column type
(the body of the item loop of check_data_items_type, pipeline.py 591-638).
Returns the replacement column when the source assigns one, and the dtype
name recorded in the invalid list when the cast failed. -/
def reconcileColumn (col : List PyVal) (ct : String) :
    Option (List PyVal) × Option String :=
  let d := inferDtype col
  if ct = "NUMBER" then
    if !(isNumericDtype d) || isBoolDtype d then
      match astypeFloat col with
      | some col2 => (some col2, none)
      | none => (none, some d.name)
    else (none, none)
  else if ct = "LITERAL" then
    if !(isStringDtype d) then (some (astypeStr col), none) else (none, none)
  else if ct = "TIMESTAMP" then
    if !(isDatetimeDtype d) then
      match toDatetime col with
      | some col2 => (some col2, none)
      | none => (none, some d.name)
    else (none, none)
  else if ct = "BOOLEAN" then
    if !(isBoolDtype d) then (some (astypeBool col), none) else (none, none)
  else (none, none)

/-- One iteration of the declared-item scan: a declared item absent from the
dataframe is skipped (the KeyError continue); otherwise its column is
reconciled, an assigned replacement is written in place, and a failed cast
records the (item, actual dtype, declared type) triple. -/
def processItem (df : DataFrame) (it : DataItem) :
    DataFrame × Option (String × String × String) :=
  match df.getCol it.name with
  | none => (df, none)
  | some col =>
    let r := reconcileColumn col it.columnType
    ((match r.1 with
      | some col2 => df.setColumn it.name col2
      | none => df),
     r.2.map (fun dn => (it.name, dn, it.columnType)))

def checkItemsLoop (df : DataFrame) (items : List DataItem)
    (acc : List (String × String × String)) :
    DataFrame × List (String × String × String) :=
  match items with
  | [] => (df, acc)
  | it :: rest =>
    let r := processItem df it
    checkItemsLoop r.1 rest (acc ++ r.2.toList)

/-- check_data_items_type (pipeline.py 569-648): scan every declared item,
coercing mismatched columns in place; afterwards raise one aggregate error
carrying every irreconcilable (item, actual, declared) triple, or return the
updated dataframe when nothing failed.  The source formats the triples into
a single message string before raising. -/
def check_data_items_type (df : DataFrame) (items : List DataItem) :
    Except (List (String × String × String)) DataFrame :=
  let r := checkItemsLoop df items []
  if r.2.isEmpty then .ok r.1 else .error r.2

/-- Exception classes relevant to the failure taxonomy of _execute_stage.
`reconcileError` carries the aggregate invalid-item list raised by
check_data_items_type; `unboundLocal` models the UnboundLocalError hit when
a suppressed execution failure leaves newdf unassigned. -/
inductive ExcKind
  | typeError
  | valueError
  | attributeError
  | synError
  | nameError
  | keyError
  | unboundLocal
  | reconcileError (bad : List (String × String × String))
  | baseExc
  deriving DecidableEq, Repr

/-- Observable effects of a pipeline run: trace entries, logger warnings,
the two execute calling conventions, central fault-handler invocations
with their abort flag, preload executions and registration calls. -/
inductive Event
  | trace (msg : String)
  | warn (msg : String)
  | fullCall (stage : String)
  | reducedCall (stage : String)
  | handler (kind : ExcKind) (abortOnFail : Bool) (stage : String)
  | preloadExec (stage : String)
  | registerCall (stage : String)
  deriving DecidableEq, Repr

/-- The EntityType collaborator surface consumed by CalcPipeline: the two
session idempotency flags, window overrides, the entity filter, the
materialized source data, null-drop configuration, system columns, declared
data items, the scd-stage and custom-calendar registries, and whether
write_unmatched_members succeeds. -/
structure EntityType where
  preloadComplete : Bool
  initialTransform : Bool
  startOverride : Option Nat
  endOverride : Option Nat
  entityFilter : Option (List String)
  sourceData : DataFrame
  dropAllNullRows : Bool
  customExcludeCols : List String
  systemColumns : List String
  dataItems : List DataItem
  scdStages : List String
  customCalendar : Option String
  writeUnmatchedOk : Bool

/-- A pipeline stage with the optional-capability surface probed by the
source.  Option-typed fields model attribute presence: `dsAttrs` is the
(is_data_source, merge_method) pair, absent when reading either attribute
raises AttributeError; `scdAttr` and `calAttr` are present whenever the
attribute exists, matching the try/else registration semantics;
`abortOverride` is the per-stage abort-on-fail attribute.  `acceptsFull`
states whether execute admits the (df, start_ts, end_ts, entities)
parameter set; `execFull` and `execReduced` are the two execute bodies and
`preloadStatus` the status a preload stage reports. -/
structure Stage where
  name : String
  is_preload : Bool := false
  dsAttrs : Option (Bool × String) := none
  scdAttr : Option Bool := none
  calAttr : Option Bool := none
  abortOverride : Option Bool := none
  output_item : Option String := none
  conform : Option (DataFrame → Except Unit DataFrame) := none
  acceptsFull : Bool := true
  execFull : DataFrame → Option Nat → Option Nat → Option (List String) →
    Except ExcKind DataFrame := fun df _ _ _ => .ok df
  execReduced : DataFrame → Except ExcKind DataFrame := fun df => .ok df
  preloadStatus : Bool := true

/-- The trace note recorded for each classified execution failure
(pipeline.py 337-355), keyed by exception class. -/
def failureNote (e : ExcKind) (name : String) : String :=
  match e with
  | .attributeError => "The function " ++ name ++ " makes a reference to an object property that does not exist"
  | .synError => "The function " ++ name ++ " contains a syntax error"
  | .valueError => "The function " ++ name ++ " is operating on data that has an unexpected value or data type"
  | .typeError => "The function " ++ name ++ " is operating on data that has an unexpected value or data type"
  | .nameError => "The function " ++ name ++ " referred to an object that does not exist"
  | _ => "The function " ++ name ++ " failed to execute"

/-- Outcome of the full-signature call execute(df, start_ts, end_ts,
entities): a stage whose execute lacks a matching parameter set raises
TypeError at the call; otherwise the body runs. -/
def fullOutcomeOf (s : Stage) (df : DataFrame) (sts ets : Option Nat)
    (ents : Option (List String)) : Except ExcKind DataFrame :=
  if s.acceptsFull then s.execFull df sts ets ents else .error .typeError

/-- The dispatch-and-validate body of CalcPipeline._execute_stage
(pipeline.py 329-377), after conform_index: the dual dispatch retries the
reduced form execute(df) whenever the full form raised TypeError; every
classified execution failure is traced and delegated to the central fault
handler, which re-raises exactly when the effective abort flag `abortF` is
set (a suppressed execution failure then trips the UnboundLocalError on
newdf at the validate_df call).  validate_df index warnings are logger-only
and omitted; its call into check_data_items_type threads the in-place
coercions and lets the aggregate reconciliation error propagate uncaught.
`evs0` carries events accumulated by the conform step. -/
def executeStageCore (et : EntityType) (s : Stage) (df : DataFrame)
    (start_ts end_ts : Option Nat) (entities : Option (List String))
    (register dropna : Bool) (abortF : Bool) (evs0 : List Event) :
    Except ExcKind DataFrame × List Event :=
  let name := s.name
  let evs1 := evs0 ++ [Event.trace ("Stage " ++ name)]
  let dis :=
    match fullOutcomeOf s df start_ts end_ts entities with
    | Except.error ExcKind.typeError =>
      (s.execReduced df, evs1 ++ [Event.fullCall name, Event.reducedCall name])
    | o => (o, evs1 ++ [Event.fullCall name])
  match dis.1 with
  | Except.error e =>
    let evs3 := dis.2 ++ [Event.trace (failureNote e name), Event.handler e abortF name]
    if abortF then (Except.error e, evs3)
    else (Except.error ExcKind.unboundLocal, evs3)
  | Except.ok newdf =>
    match check_data_items_type newdf et.dataItems with
    | Except.error bad => (Except.error (ExcKind.reconcileError bad), dis.2)
    | Except.ok newdf2 =>
      let evs4 := if register then dis.2 ++ [Event.registerCall name] else dis.2
      let newdf3 := if dropna then (newdf2.replaceInfNan).dropAnyNull else newdf2
      (Except.ok newdf3, evs4 ++ [Event.trace ("Completed stage " ++ name)])

/-- CalcPipeline._execute_stage (pipeline.py 311-377): resolve the
effective abort flag from the stage override against the caller-supplied
default, run the optional conform_index adjustment — its KeyError goes to
the fault handler and, when suppressed, execution continues on the
unconformed dataframe — then hand over to the dispatch-and-validate core
above. -/
def execute_stage (et : EntityType) (stage : Stage) (df0 : DataFrame)
    (start_ts end_ts : Option Nat) (entities : Option (List String))
    (register dropna : Bool) (abort_on_fail : Bool) :
    Except ExcKind DataFrame × List Event :=
  let abortF := stage.abortOverride.getD abort_on_fail
  let name := stage.name
  match stage.conform with
  | none => executeStageCore et stage df0 start_ts end_ts entities register dropna abortF []
  | some f =>
    match f df0 with
    | .ok d => executeStageCore et stage d start_ts end_ts entities register dropna abortF []
    | .error _ =>
      let evs := [Event.trace ("KeyError while conforming index prior to execution of function " ++ name),
                  Event.handler ExcKind.keyError abortF name]
      if abortF then (Except.error ExcKind.keyError, evs)
      else executeStageCore et stage df0 start_ts end_ts entities register dropna abortF evs

/-- The ordinary-stage loop of CalcPipeline.execute (pipeline.py 285-298):
stages run in order with abort-on-fail true; when the accumulated dataframe
is empty the loop breaks and no further stage executes. -/
def runStages (et : EntityType) (df : DataFrame) (stages : List Stage)
    (start_ts end_ts : Option Nat) (entities : Option (List String))
    (register dropna : Bool) : Except ExcKind DataFrame × List Event :=
  match stages with
  | [] => (.ok df, [])
  | s :: rest =>
    if df.isEmpty then (.ok df, [])
    else
      match execute_stage et s df start_ts end_ts entities register dropna true with
      | (.ok df2, evs) =>
        let r := runStages et df2 rest start_ts end_ts entities register dropna
        (r.1, evs ++ r.2)
      | (.error e, evs) => (.error e, evs)

/-- CalcPipeline._extract_preload_stages: partition preload stages from the
rest, preserving order on both sides. -/
def extractPreloadStages (stages : List Stage) : List Stage × List Stage :=
  (stages.filter (fun s => s.is_preload), stages.filter (fun s => !s.is_preload))

/-- The preload loop of _execute_preload_stages (pipeline.py 83-100): each
preload stage runs only while the session flag is unset, must expose an
output_item (AttributeError otherwise, propagating to the caller) and, on a
False status, discards the remaining ordinary-stage list and breaks. -/
def preloadLoop (et : EntityType) (ps : List Stage) (register : Bool)
    (acc : List String) (stages : List Stage) :
    Except ExcKind (List Stage × List String) × List Event :=
  match ps with
  | [] => (.ok (stages, acc), [])
  | p :: rest =>
    if !et.preloadComplete then
      let evs0 := [Event.preloadExec p.name, Event.trace (p.name ++ " completed as pre-load")]
      let evs1 := if register then evs0 ++ [Event.registerCall p.name] else evs0
      match p.output_item with
      | none => (.error .attributeError, evs1)
      | some item =>
        if !p.preloadStatus then
          (.ok (([] : List Stage), acc ++ [item]),
           evs1 ++ [Event.trace ("Preload stage " ++ p.name ++ " returned with status of False. Aborting execution")])
        else
          let r := preloadLoop et rest register (acc ++ [item]) stages
          (r.1, evs1 ++ r.2)
    else
      preloadLoop et rest register acc stages

/-- CalcPipeline._execute_preload_stages (pipeline.py 75-102): extract and
run the preload stages, then set the session preload-complete flag; an
AttributeError raised for a missing output_item skips the flag assignment. -/
def execute_preload_stages (et : EntityType) (stages : List Stage) (register : Bool) :
    Except ExcKind (List Stage × List String) × EntityType × List Event :=
  let pr := extractPreloadStages stages
  let r := preloadLoop et pr.1 register [] pr.2
  match r.1 with
  | .error e => (.error e, et, r.2)
  | .ok v => (.ok v, { et with preloadComplete := true }, r.2)

/-- Result of the classification pass of _execute_data_sources. -/
structure ClassifyResult where
  dfR : Except ExcKind DataFrame
  et : EntityType
  events : List Event
  remaining : List Stage
  secondary : List Stage
  lookups : List Stage

/-- The classification loop of _execute_data_sources (pipeline.py 121-165):
stages exposing an scd-lookup or custom-calendar attribute are registered
with the entity type whenever the attribute exists; replace-merge data
sources execute immediately with abort-on-fail forced true, outer-merge
sources are collected as secondary, scd/calendar stages as special lookups,
and everything else stays an ordinary stage. -/
def classifyLoop (et : EntityType) (stages : List Stage) (df : DataFrame)
    (start_ts end_ts : Option Nat) (entities : Option (List String))
    (register dropna : Bool) : ClassifyResult :=
  match stages with
  | [] => ⟨.ok df, et, [], [], [], []⟩
  | s :: rest =>
    let et1 := if s.scdAttr.isSome then { et with scdStages := et.scdStages ++ [s.name] } else et
    let et2 := if s.calAttr.isSome then { et1 with customCalendar := some s.name } else et1
    let isDS := (s.dsAttrs.map Prod.fst).getD false
    let mm : Option String := s.dsAttrs.map Prod.snd
    let isScd := s.scdAttr.getD false
    let isCal := s.calAttr.getD false
    if isDS && (mm == some "replace") then
      match execute_stage et2 s df start_ts end_ts entities register dropna true with
      | (.ok df2, evs) =>
        let r := classifyLoop et2 rest df2 start_ts end_ts entities register dropna
        { r with events := evs ++ [Event.trace ("Replaced incoming dataframe with custom data source " ++ s.name)] ++ r.events }
      | (.error e, evs) => ⟨.error e, et2, evs, [], [], []⟩
    else if isDS && (mm == some "outer") then
      let r := classifyLoop et2 rest df start_ts end_ts entities register dropna
      { r with secondary := s :: r.secondary }
    else if isScd || isCal then
      let r := classifyLoop et2 rest df start_ts end_ts entities register dropna
      { r with lookups := s :: r.lookups }
    else
      let r := classifyLoop et2 rest df start_ts end_ts entities register dropna
      { r with remaining := s :: r.remaining }

/-- Sequential execution of a secondary-source or special-lookup stage list,
each stage traced and run with abort-on-fail forced true. -/
def sourcesLoop (et : EntityType) (ss : List Stage) (df : DataFrame)
    (start_ts end_ts : Option Nat) (entities : Option (List String))
    (register dropna : Bool) (label : String) :
    Except ExcKind DataFrame × List Event :=
  match ss with
  | [] => (.ok df, [])
  | s :: rest =>
    let evs0 := [Event.trace ("Processing " ++ label ++ " " ++ s.name)]
    match execute_stage et s df start_ts end_ts entities register dropna true with
    | (.ok df2, evs) =>
      let r := sourcesLoop et rest df2 start_ts end_ts entities register dropna label
      (r.1, evs0 ++ evs ++ r.2)
    | (.error e, evs) => (.error e, evs0 ++ evs)

/-- CalcPipeline._execute_data_sources (pipeline.py 105-199).  replace_count
is initialized to zero and, as in the source, never incremented, so the
multiple-replace warning guard can never fire.  After classification the
secondary sources run in encounter order, then the special lookup stages,
the latter only when the accumulated dataframe is non-empty. -/
def execute_data_sources (et : EntityType) (stages : List Stage) (df : DataFrame)
    (start_ts end_ts : Option Nat) (entities : Option (List String))
    (register dropna : Bool) :
    Except ExcKind (DataFrame × List Stage) × EntityType × List Event :=
  let replace_count : Nat := 0
  let c := classifyLoop et stages df start_ts end_ts entities register dropna
  match c.dfR with
  | .error e => (.error e, c.et, c.events)
  | .ok df1 =>
    let warnEvs := if replace_count > 1 then
        [Event.warn "The pipeline has more than one custom source with a merge strategy of replace. The pipeline will only contain data from the last replacement"]
      else []
    let r2 := sourcesLoop c.et c.secondary df1 start_ts end_ts entities register dropna "secondary data source"
    match r2.1 with
    | .error e => (.error e, c.et, c.events ++ warnEvs ++ r2.2)
    | .ok df2 =>
      if !df2.isEmpty && !c.lookups.isEmpty then
        match sourcesLoop c.et c.lookups df2 start_ts end_ts entities register dropna "special lookup stage" with
        | (.error e, evs3) => (.error e, c.et, c.events ++ warnEvs ++ r2.2 ++ evs3)
        | (.ok df3, evs3) => (.ok (df3, c.remaining), c.et, c.events ++ warnEvs ++ r2.2 ++ evs3)
      else (.ok (df2, c.remaining), c.et, c.events ++ warnEvs ++ r2.2)

/-- Result of a whole pipeline execution: the final dataframe or the
propagated exception, the updated entity type, and the event log. -/
structure PipeResult where
  dfR : Except ExcKind DataFrame
  et : EntityType
  events : List Event

/-- Session start-timestamp override applied before any stage runs. -/
def resolveStart (et : EntityType) (t : Option Nat) : Option Nat :=
  match et.startOverride with
  | some x => some x
  | none => t

/-- Session end-timestamp override applied before any stage runs. -/
def resolveEnd (et : EntityType) (t : Option Nat) : Option Nat :=
  match et.endOverride with
  | some x => some x
  | none => t

/-- The entity filter is consulted only when the caller passed none. -/
def resolveEntities (et : EntityType) (e : Option (List String)) :
    Option (List String) :=
  match e with
  | none => et.entityFilter
  | some x => some x

/-- The tail of CalcPipeline.execute after stage-list resolution
(pipeline.py 255-308): missing dataframe check, null cleanup, dummy
preload-item columns, the ordinary-stage loop, and during an initial
transform the unmatched-member write-back (its failure handled with abort
false) followed by marking the initial transform complete. -/
def pipelineTail (et : EntityType) (stages : List Stage) (df0 : Option DataFrame)
    (preloaded : List String) (dropna : Bool)
    (start_ts end_ts : Option Nat) (entities : Option (List String))
    (register : Bool) (is_initial : Bool) (evs0 : List Event) : PipeResult :=
  match df0 with
  | none => ⟨.error .valueError, et, evs0⟩
  | some dfA =>
    let dfC := postNullCleanup dropna et.dropAllNullRows et.systemColumns et.customExcludeCols dfA
    let dfD := preloaded.foldl (fun d pl => d.setColumn pl (List.replicate d.nRows (PyVal.bool true))) dfC
    let r := runStages et dfD stages start_ts end_ts entities register dropna
    match r.1 with
    | .error e => ⟨.error e, et, evs0 ++ r.2⟩
    | .ok dfE =>
      if is_initial then
        let wEvs := if et.writeUnmatchedOk then ([] : List Event)
          else [Event.trace "Error while writing unmatched members to dimension. See log",
                Event.handler .baseExc false "pipeline"]
        ⟨.ok dfE, { et with initialTransform := false }, evs0 ++ r.2 ++ wEvs⟩
      else ⟨.ok dfE, et, evs0 ++ r.2⟩

/-- CalcPipeline.execute (pipeline.py 202-308).  During an initial
transform the preload stages run first, a missing dataframe is materialized
from the entity source data, and the data-source stages are resolved; once
the initial-transform flag is cleared every configured stage goes straight
to the ordinary loop and a missing dataframe is a ValueError. -/
def execute_pipeline (et0 : EntityType) (stages : List Stage)
    (df0 : Option DataFrame) (dropna : Bool)
    (start_ts0 end_ts0 : Option Nat) (entities0 : Option (List String))
    (preloaded0 : Option (List String)) (register : Bool) : PipeResult :=
  let preloaded := preloaded0.getD []
  let is_initial := et0.initialTransform
  let entities := resolveEntities et0 entities0
  let start_ts := resolveStart et0 start_ts0
  let end_ts := resolveEnd et0 end_ts0
  if is_initial then
    let tEvs := (match start_ts with
                 | some t => [Event.trace ("Start timestamp " ++ toString t)]
                 | none => []) ++
                (match end_ts with
                 | some t => [Event.trace ("End timestamp " ++ toString t)]
                 | none => [])
    match execute_preload_stages et0 stages register with
    | (.error e, et1, evs) => ⟨.error e, et1, tEvs ++ evs⟩
    | (.ok (stages1, pitems), et1, evs) =>
      let preloaded1 := preloaded ++ pitems
      let df1 := match df0 with
                 | none => some et1.sourceData
                 | some d => some d
      match df1 with
      | none => ⟨.error .valueError, et1, tEvs ++ evs⟩
      | some dfS =>
        match execute_data_sources et1 stages1 dfS start_ts end_ts entities register dropna with
        | (.error e, et2, evs2) => ⟨.error e, et2, tEvs ++ evs ++ evs2⟩
        | (.ok (df2, stages2), et2, evs2) =>
          pipelineTail et2 stages2 (some df2) preloaded1 dropna start_ts end_ts entities register true (tEvs ++ evs ++ evs2)
  else
    pipelineTail et0 stages df0 preloaded dropna start_ts end_ts entities register false []

/-- The fragment of Python expression syntax that PipelineExpression
formulas use: string literals (quoted substrings of the formula text),
unexpanded placeholder references (a raw dollar-brace reference, a Python
syntax error if it ever reaches eval), direct column references (the
rewritten form), and addition. -/
inductive PyExpr
  | strLit (s : String)
  | holder (s : String)
  | colRef (s : String)
  | add (a b : PyExpr)
  deriving DecidableEq, Repr

/-- Whether the formula text contains a dollar-brace placeholder. -/
def PyExpr.hasHolder : PyExpr → Bool
  | .holder _ => true
  | .add a b => a.hasHolder || b.hasHolder
  | _ => false

/-- The regex rewrite of placeholders into direct column references. -/
def PyExpr.substHolders : PyExpr → PyExpr
  | .holder s => .colRef s
  | .add a b => .add a.substHolders b.substHolders
  | e => e

/-- The quoted substrings of the formula text, in textual order (the source
collects double-quoted then single-quoted matches; the scenarios verified
here use a single quote style). -/
def PyExpr.stringLits : PyExpr → List String
  | .strLit s => [s]
  | .add a b => a.stringLits ++ b.stringLits
  | _ => []

/-- Python and pandas addition on our value domain: numeric addition with
NaN and infinity propagation, string concatenation, booleans as 0/1;
mixing strings or datetimes with anything else is a TypeError. -/
def pyAdd (a b : PyVal) : Except ExcKind PyVal :=
  match a, b with
  | .str x, .str y => .ok (.str (x ++ y))
  | .str _, _ => .error .typeError
  | _, .str _ => .error .typeError
  | .ts _, _ => .error .typeError
  | _, .ts _ => .error .typeError
  | .nan, _ => .ok .nan
  | _, .nan => .ok .nan
  | .inf, .ninf => .ok .nan
  | .ninf, .inf => .ok .nan
  | .inf, _ => .ok .inf
  | _, .inf => .ok .inf
  | .ninf, _ => .ok .ninf
  | _, .ninf => .ok .ninf
  | .int x, .int y => .ok (.int (x + y))
  | .bool x, .bool y => .ok (.int ((if x then 1 else 0) + (if y then 1 else 0)))
  | .bool x, .int y => .ok (.int ((if x then 1 else 0) + y))
  | .int x, .bool y => .ok (.int (x + (if y then 1 else 0)))
  | .flt x, .flt y => .ok (.flt (x + y))
  | .flt x, .int y => .ok (.flt (x + y))
  | .int x, .flt y => .ok (.flt (x + y))
  | .flt x, .bool y => .ok (.flt (x + (if y then 1 else 0)))
  | .bool x, .flt y => .ok (.flt ((if x then 1 else 0) + y))

/-- An eval result is either a Python scalar or a pandas Series. -/
inductive EvalRes
  | scalar (v : PyVal)
  | series (vs : List PyVal)
  deriving DecidableEq, Repr

def zipAdd : List PyVal → List PyVal → Except ExcKind (List PyVal)
  | [], [] => .ok []
  | a :: as2, b :: bs2 =>
    match pyAdd a b, zipAdd as2 bs2 with
    | .ok v, .ok vs => .ok (v :: vs)
    | .error e, _ => .error e
    | .ok _, .error e => .error e
  | _, _ => .error .valueError

/-- Addition of eval results: Series add pointwise, scalars broadcast. -/
def evalAdd (x y : EvalRes) : Except ExcKind EvalRes :=
  match x, y with
  | .scalar a, .scalar b => (pyAdd a b).map .scalar
  | .series as2, .series bs2 => (zipAdd as2 bs2).map .series
  | .scalar a, .series bs2 => (bs2.mapM (fun b => pyAdd a b)).map .series
  | .series as2, .scalar b => (as2.mapM (fun a => pyAdd a b)).map .series

/-- Python eval of the (possibly rewritten) formula over the dataframe: a
string literal is a scalar, a column reference reads the column (KeyError
when absent), a surviving raw placeholder is a syntax error. -/
def evalExpr (df : DataFrame) : PyExpr → Except ExcKind EvalRes
  | .strLit s => .ok (.scalar (.str s))
  | .holder _ => .error .synError
  | .colRef s =>
    match df.getCol s with
    | some vs => .ok (.series vs)
    | none => .error .keyError
  | .add a b =>
    match evalExpr df a, evalExpr df b with
    | .ok x, .ok y => evalAdd x y
    | .error e, _ => .error e
    | .ok _, .error e => .error e

/-- A store of dataframes addressed by references, making the copy-on-entry
discipline of PipelineExpression.execute observable: the caller passes a
reference, the stage allocates a fresh reference for its copy and mutates
only the copy. -/
structure Store where
  heap : Nat → Option DataFrame
  next : Nat

def Store.read (st : Store) (r : Nat) : Option DataFrame := st.heap r

def Store.write (st : Store) (r : Nat) (d : DataFrame) : Store :=
  ⟨fun x => if x = r then some d else st.heap x, st.next⟩

def Store.alloc (st : Store) (d : DataFrame) : Nat × Store :=
  (st.next, ⟨fun x => if x = st.next then some d else st.heap x, st.next + 1⟩)

/-- PipelineExpression (pipeline.py 651-686): expression text, output item
name, and the inferred input items recomputed on every execution. -/
structure PipelineExpression where
  expression : PyExpr
  name : String
  input_items : List String

/-- PipelineExpression.infer_inputs: every quoted substring of the formula
text that matches an existing column is recorded as an inferred input. -/
def infer_inputs (e : PyExpr) (df : DataFrame) : List String :=
  e.stringLits.filter (fun x => df.columns.contains x)

/-- Assigning an eval result to a column: a scalar broadcasts across the
rows, a Series is taken as is. -/
def resToColumn (n : Nat) (v : EvalRes) : List PyVal :=
  match v with
  | .scalar x => List.replicate n x
  | .series vs => vs

/-- PipelineExpression.execute (pipeline.py 662-677): copy the incoming
dataframe, infer the input items, rewrite dollar-brace placeholders to
column references when the text contains any, eval the formula and assign
the result to the output column of the copy.  The SyntaxError reraise of
the source preserves the exception class, so errors propagate unchanged
here; the store records that only the copy is ever written. -/
def PipelineExpression.execute (self : PipelineExpression) (st : Store) (r : Nat) :
    Except ExcKind (PipelineExpression × Store × Nat × List Event) :=
  match st.read r with
  | none => .error .keyError
  | some dfIn =>
    let a := st.alloc dfIn
    let rCopy := a.1
    let st1 := a.2
    let self1 := { self with input_items := infer_inputs self.expression dfIn }
    let expr := if self.expression.hasHolder then self.expression.substHolders else self.expression
    match evalExpr dfIn expr with
    | .error e => .error e
    | .ok v =>
      let dfOut := dfIn.setColumn self1.name (resToColumn dfIn.nRows v)
      let st2 := st1.write rCopy dfOut
      .ok (self1, st2, rCopy, [Event.trace "Evaluated expression"])

/-- The two-column dataframe of the specification example: a=[1,2], b=[3,4]. -/
def dfAB : DataFrame := ⟨[("a", [.int 1, .int 2]), ("b", [.int 3, .int 4])]⟩

/-- A one-dataframe store holding `dfAB` at reference 0. -/
def store0 : Store := ⟨fun x => if x = 0 then some dfAB else none, 1⟩

/-- The formula text with dollar-brace placeholders. -/
def exprDollar : PyExpr := .add (.holder "a") (.holder "b")

/-- The bare-quoted formula text: the Python expression built from the two
quoted column names. -/
def exprBare : PyExpr := .add (.strLit "a") (.strLit "b")

/-- A baseline entity type: flags unset resp. initial, no overrides, no
declared items, no null-drop configuration. -/
def etBase : EntityType :=
  { preloadComplete := false, initialTransform := true, startOverride := none,
    endOverride := none, entityFilter := none, sourceData := dfAB,
    dropAllNullRows := false, customExcludeCols := [], systemColumns := [],
    dataItems := [], scdStages := [], customCalendar := none,
    writeUnmatchedOk := true }

/-- The output column produced by executing the bare-quoted formula over
`dfAB`. -/
def c1BareOut : Option (List PyVal) :=
  match PipelineExpression.execute ⟨exprBare, "out", []⟩ store0 0 with
  | .ok (_, st, r, _) => (st.read r).bind (fun d => d.getCol "out")
  | .error _ => none

/-- The input items inferred while executing the bare-quoted formula. -/
def c1BareInputs : Option (List String) :=
  match PipelineExpression.execute ⟨exprBare, "out", []⟩ store0 0 with
  | .ok (p, _, _, _) => some p.input_items
  | .error _ => none

/-- The output column produced by executing the placeholder formula over
`dfAB`. -/
def c1DollarOut : Option (List PyVal) :=
  match PipelineExpression.execute ⟨exprDollar, "out", []⟩ store0 0 with
  | .ok (_, st, r, _) => (st.read r).bind (fun d => d.getCol "out")
  | .error _ => none

/-- C1 counterexample: over a=[1,2], b=[3,4] the bare-quoted formula built
from the quoted names a and b does resolve both names as inferred input
items, but its evaluation is plain Python string concatenation, so the
output column is the constant string ab in every row, not [4,6] as the
claim states. -/
theorem C1_counterexample :
    c1BareOut = some [PyVal.str "ab", PyVal.str "ab"] ∧
    c1BareInputs = some ["a", "b"] ∧
    c1BareOut ≠ some [PyVal.int 4, PyVal.int 6] := by decide

/-- C1 amended: the placeholder formula is rewritten to column references
and its output column evaluates to [4,6]; the bare-quoted equivalent
resolves the quoted names a and b as inferred input items, but its output
column evaluates to the concatenated string ab broadcast to every row. -/
theorem C1_amended_holds :
    c1DollarOut = some [PyVal.int 4, PyVal.int 6] ∧
    c1BareOut = some [PyVal.str "ab", PyVal.str "ab"] ∧
    c1BareInputs = some ["a", "b"] := by decide

/-- First replacement data source: ignores its input and produces its own
source dataframe. -/
def dfSrcA : DataFrame := ⟨[("x", [.int 10])]⟩

/-- Second replacement data source output, distinct from the first. -/
def dfSrcB : DataFrame := ⟨[("y", [.int 20, .int 21])]⟩

def srcStageA : Stage :=
  { name := "srcA", dsAttrs := some (true, "replace"),
    execFull := fun _ _ _ _ => .ok dfSrcA }

def srcStageB : Stage :=
  { name := "srcB", dsAttrs := some (true, "replace"),
    execFull := fun _ _ _ _ => .ok dfSrcB }

/-- Whether an event is a logger warning. -/
def isWarnEvent : Event → Bool
  | .warn _ => true
  | _ => false

/-- _execute_data_sources run over two replace-merge data sources. -/
def c2Run : Except ExcKind (DataFrame × List Stage) × EntityType × List Event :=
  execute_data_sources etBase [srcStageA, srcStageB] dfAB none none none false false

/-- The accumulated dataframe surviving the C2 run. -/
def c2DfOut : Option DataFrame :=
  match c2Run.1 with
  | .ok (d, _) => some d
  | .error _ => none

/-- Whether the C2 run returned an empty remaining-stage list. -/
def c2RemainingEmpty : Bool :=
  match c2Run.1 with
  | .ok (_, rem) => rem.isEmpty
  | .error _ => false

/-- C2: with two replace-merge data sources both execute, only the output
of the last one survives as the accumulated dataframe, and, because the
source initializes replace_count to zero without ever incrementing it, no
warning about the multiple replace sources is ever recorded — the dead
counter and the unreachable warning branch show the claimed warning was
intended but is never emitted. -/
theorem C2_code_evaluation :
    c2DfOut = some dfSrcB ∧
    c2RemainingEmpty = true ∧
    Event.fullCall "srcA" ∈ c2Run.2.2 ∧
    Event.fullCall "srcB" ∈ c2Run.2.2 ∧
    c2Run.2.2.any isWarnEvent = false ∧
    dfSrcA ≠ dfSrcB := by decide

/-- A replace-merge data source carrying its own abort-on-fail override set
to false, whose execute raises a ValueError. -/
def srcBadOverride : Stage :=
  { name := "src1", dsAttrs := some (true, "replace"), abortOverride := some false,
    execFull := fun _ _ _ _ => .error .valueError }

/-- Event log of resolving a stage list whose only member is the failing
replace source with the false abort override. -/
def c3Events : List Event :=
  (execute_data_sources etBase [srcBadOverride] dfAB none none none false false).2.2

/-- Whether an event is a fault-handler invocation with abort-on-fail true. -/
def isAbortTrueHandler : Event → Bool
  | .handler _ b _ => b
  | _ => false

/-- C3 counterexample: a primary (replace) data source declaring its own
abort-on-fail override of false raises; the central fault handler is then
invoked with abort-on-fail false — the stage override beats the forced
true — so the handler is not invoked with abort-on-fail true as the claim
states. -/
theorem C3_counterexample :
    Event.handler ExcKind.valueError false "src1" ∈ c3Events ∧
    c3Events.any isAbortTrueHandler = false := by decide

/-- A stage whose execute admits the full parameter set but raises a
TypeError from inside its body; its reduced form succeeds. -/
def bodyTypeErrStage : Stage :=
  { name := "s4", execFull := fun _ _ _ _ => .error .typeError,
    execReduced := fun _ => .ok dfSrcA }

/-- _execute_stage applied to the body-TypeError stage. -/
def c4Run : Except ExcKind DataFrame × List Event :=
  execute_stage etBase bodyTypeErrStage dfAB none none none false false true

/-- The dataframe returned by the C4 run, when it succeeded. -/
def c4DfOut : Option DataFrame :=
  match c4Run.1 with
  | .ok d => some d
  | .error _ => none

/-- C4 counterexample: the stage accepts the full parameter set — the full
call is not rejected for lacking one — yet because its body raises a
TypeError the reduced form execute(df) is attempted anyway, and its result
becomes the stage output.  The bare except-TypeError dispatch cannot tell a
signature mismatch from a TypeError raised inside the stage. -/
theorem C4_counterexample :
    bodyTypeErrStage.acceptsFull = true ∧
    Event.reducedCall "s4" ∈ c4Run.2 ∧
    c4DfOut = some dfSrcA := by decide

/-- C10: whenever the accumulated dataframe is empty as the ordinary-stage
loop reaches a stage, that stage and all remaining stages are skipped —
no execute is invoked, no event is emitted — and the empty dataframe is
returned unchanged to proceed to post-processing. -/
theorem C10_empty_breaks_loop (et : EntityType) (df : DataFrame) (stages : List Stage)
    (sts ets : Option Nat) (ents : Option (List String)) (register dropna : Bool)
    (h : df.isEmpty = true) :
    runStages et df stages sts ets ents register dropna = (.ok df, []) := by
  cases stages with
  | nil => rfl
  | cons s rest => simp [runStages, h]

/-- A dataframe with a column but no rows: pandas reports it empty. -/
def dfNoRows : DataFrame := ⟨[("a", [])]⟩

/-- An ordinary stage with default behavior. -/
def ordStage : Stage := { name := "ord1" }

theorem C10_empty_breaks_loop_witness :
    dfNoRows.isEmpty = true ∧
    runStages etBase dfNoRows [ordStage] none none none false false = (.ok dfNoRows, []) :=
  ⟨by decide, C10_empty_breaks_loop etBase dfNoRows [ordStage] none none none false false (by decide)⟩

/-- A stage without conform_index and without an abort override whose full
execute call raises a non-TypeError: the exception is classified, traced,
handed to the fault handler with the caller-supplied abort flag true, and
re-raised. -/
theorem executeStage_raises (et : EntityType) (s : Stage) (df : DataFrame)
    (sts ets : Option Nat) (ents : Option (List String)) (register dropna : Bool)
    (hov : s.abortOverride = none) (hcf : s.conform = none) (hfa : s.acceptsFull = true)
    (k : ExcKind) (hk : s.execFull df sts ets ents = .error k) (hkt : k ≠ .typeError) :
    execute_stage et s df sts ets ents register dropna true =
      (.error k, [Event.trace ("Stage " ++ s.name), Event.fullCall s.name,
                  Event.trace (failureNote k s.name), Event.handler k true s.name]) := by
  have h1 : execute_stage et s df sts ets ents register dropna true =
      executeStageCore et s df sts ets ents register dropna true [] := by
    simp only [execute_stage, hcf, hov, Option.getD_none]
  rw [h1]
  unfold executeStageCore fullOutcomeOf
  rw [hfa]
  simp only [if_true]
  rw [hk]
  cases k <;> simp_all

/-- C3 amended: a primary (replace) or secondary (outer) data-source stage
that declares no abort-on-fail override of its own and whose execute raises
always reaches the central fault handler with abort-on-fail forced true —
irrespective of any caller-supplied default, since _execute_data_sources
hardcodes true — and the run aborts with the propagated exception. -/
theorem C3_source_failure_forces_abort (et : EntityType) (s : Stage) (df : DataFrame)
    (sts ets : Option Nat) (ents : Option (List String)) (register dropna : Bool)
    (mm : String) (hmm : mm = "replace" ∨ mm = "outer")
    (hds : s.dsAttrs = some (true, mm))
    (hov : s.abortOverride = none)
    (hcf : s.conform = none)
    (hfa : s.acceptsFull = true)
    (k : ExcKind) (hk : s.execFull df sts ets ents = .error k)
    (hkt : k ≠ ExcKind.typeError) :
    Event.handler k true s.name ∈
      (execute_data_sources et [s] df sts ets ents register dropna).2.2 ∧
    (execute_data_sources et [s] df sts ets ents register dropna).1 = .error k := by
  have L : ∀ etx : EntityType,
      execute_stage etx s df sts ets ents register dropna true =
        (.error k, [Event.trace ("Stage " ++ s.name), Event.fullCall s.name,
                    Event.trace (failureNote k s.name), Event.handler k true s.name]) :=
    fun etx => executeStage_raises etx s df sts ets ents register dropna hov hcf hfa k hk hkt
  rcases hmm with rfl | rfl <;>
    simp [execute_data_sources, classifyLoop, sourcesLoop, hds, L]

/-- A replace-merge data source with no abort override whose execute raises
a ValueError. -/
def srcNoOverride : Stage :=
  { name := "w3", dsAttrs := some (true, "replace"),
    execFull := fun _ _ _ _ => .error .valueError }

theorem C3_source_failure_forces_abort_witness :
    (srcNoOverride.dsAttrs = some (true, "replace") ∧
     srcNoOverride.abortOverride = none ∧
     srcNoOverride.conform = none ∧
     srcNoOverride.acceptsFull = true ∧
     srcNoOverride.execFull dfAB none none none = .error ExcKind.valueError ∧
     ExcKind.valueError ≠ ExcKind.typeError) ∧
    (Event.handler ExcKind.valueError true srcNoOverride.name ∈
       (execute_data_sources etBase [srcNoOverride] dfAB none none none false false).2.2 ∧
     (execute_data_sources etBase [srcNoOverride] dfAB none none none false false).1 =
       .error ExcKind.valueError) :=
  ⟨⟨rfl, rfl, rfl, rfl, rfl, by decide⟩,
   C3_source_failure_forces_abort etBase srcNoOverride dfAB none none none false false
     "replace" (Or.inl rfl) rfl rfl rfl rfl ExcKind.valueError rfl (by decide)⟩

/-- In the dispatch core, the reduced calling convention appears in the
event log exactly when the full-form call raised a TypeError. -/
theorem reducedCall_core_iff (et : EntityType) (s : Stage) (df : DataFrame)
    (sts ets : Option Nat) (ents : Option (List String))
    (register dropna abortF : Bool) (evs0 : List Event)
    (h0 : Event.reducedCall s.name ∉ evs0) :
    (Event.reducedCall s.name ∈
       (executeStageCore et s df sts ets ents register dropna abortF evs0).2) ↔
      fullOutcomeOf s df sts ets ents = .error .typeError := by
  rcases hfo : fullOutcomeOf s df sts ets ents with e | d
  · cases e
    case typeError =>
      refine iff_of_true ?_ rfl
      unfold executeStageCore
      rw [hfo]
      rcases h2 : s.execReduced df with e2 | d2 <;> simp only [h2]
      · split <;> simp
      · rcases h3 : check_data_items_type d2 et.dataItems with bad | d3 <;>
          simp only [h3]
        · simp
        · cases register <;> cases dropna <;> simp
    all_goals refine iff_of_false ?_ (by simp [hfo])
    all_goals unfold executeStageCore
    all_goals rw [hfo]
    all_goals cases abortF <;> simp [h0]
  · refine iff_of_false ?_ (by simp [hfo])
    unfold executeStageCore
    rw [hfo]
    rcases h3 : check_data_items_type d et.dataItems with bad | d3 <;>
      simp only [h3]
    · simp [h0]
    · cases register <;> cases dropna <;> simp [h0]

/-- C4 amended: in _execute_stage the reduced form execute(df) is attempted
exactly when the full-form call raised a TypeError — whether that TypeError
came from a parameter-set mismatch at the call or from inside the stage
body; failures of any other exception class never trigger the retry. -/
theorem C4_reduced_retry_iff_typeerror (et : EntityType) (s : Stage) (df : DataFrame)
    (sts ets : Option Nat) (ents : Option (List String))
    (register dropna abort0 : Bool)
    (hcf : s.conform = none) :
    (Event.reducedCall s.name ∈
       (execute_stage et s df sts ets ents register dropna abort0).2) ↔
      fullOutcomeOf s df sts ets ents = .error .typeError := by
  have h1 : execute_stage et s df sts ets ents register dropna abort0 =
      executeStageCore et s df sts ets ents register dropna
        (s.abortOverride.getD abort0) [] := by
    simp only [execute_stage, hcf]
  rw [h1]
  exact reducedCall_core_iff et s df sts ets ents register dropna _ [] (by simp)

theorem C4_reduced_retry_iff_typeerror_witness :
    bodyTypeErrStage.conform = none ∧
    ((Event.reducedCall bodyTypeErrStage.name ∈
       (execute_stage etBase bodyTypeErrStage dfAB none none none false false true).2) ↔
      fullOutcomeOf bodyTypeErrStage dfAB none none none = .error .typeError) :=
  ⟨rfl, C4_reduced_retry_iff_typeerror etBase bodyTypeErrStage dfAB none none none false false true rfl⟩

/-- While the preload flag is unset, a preload list whose stages all expose
an output_item never raises, and a False status empties the surviving
stage list. -/
theorem preloadLoop_ok (et : EntityType) (register : Bool)
    (h1 : et.preloadComplete = false) :
    ∀ (ps : List Stage) (acc : List String) (stages : List Stage),
      (∀ p ∈ ps, p.output_item ≠ none) →
      ∃ v : List Stage × List String,
        (preloadLoop et ps register acc stages).1 = .ok v ∧
        ((∃ p ∈ ps, p.preloadStatus = false) → v.1 = []) := by
  intro ps
  induction ps with
  | nil =>
    intro acc stages _
    exact ⟨(stages, acc), rfl, by simp⟩
  | cons p rest ih =>
    intro acc stages h2
    rcases ho : p.output_item with _ | item
    · exact absurd ho (h2 p (by simp))
    by_cases hst : p.preloadStatus = true
    · obtain ⟨v, hv, himp⟩ := ih (acc ++ [item]) stages (fun q hq => h2 q (by simp [hq]))
      refine ⟨v, ?_, ?_⟩
      · simp only [preloadLoop, h1, ho, hst]
        simpa using hv
      · rintro ⟨q, hq, hqs⟩
        rcases List.mem_cons.mp hq with rfl | hq2
        · exact absurd hqs (by simp [hst])
        · exact himp ⟨q, hq2, hqs⟩
    · refine ⟨([], acc ++ [item]), ?_, fun _ => rfl⟩
      simp [preloadLoop, h1, ho, hst]

/-- C6: starting with the preload flag unset and every preload stage
exposing an output_item, _execute_preload_stages never raises to the
caller, always sets the session preload-complete flag to true, and whenever
some preload stage reports a failure status the remaining-stage list
returned for the cycle is empty. -/
theorem C6_preload_failure (et : EntityType) (stages : List Stage) (register : Bool)
    (h1 : et.preloadComplete = false)
    (h2 : ∀ p ∈ (extractPreloadStages stages).1, p.output_item ≠ none) :
    ∃ v : List Stage × List String,
      (execute_preload_stages et stages register).1 = .ok v ∧
      (execute_preload_stages et stages register).2.1 = { et with preloadComplete := true } ∧
      ((∃ p ∈ (extractPreloadStages stages).1, p.preloadStatus = false) → v.1 = []) := by
  obtain ⟨v, hv, himp⟩ := preloadLoop_ok et register h1
    (extractPreloadStages stages).1 [] (extractPreloadStages stages).2 h2
  refine ⟨v, ?_, ?_, himp⟩
  · simp only [execute_preload_stages]
    rw [hv]
  · simp only [execute_preload_stages]
    rw [hv]

/-- A well-formed preload stage reporting success. -/
def preGood : Stage := { name := "p1", is_preload := true, output_item := some "i1" }

/-- A well-formed preload stage reporting a failure status. -/
def preBad : Stage :=
  { name := "p2", is_preload := true, output_item := some "i2", preloadStatus := false }

theorem C6_preload_failure_witness :
    etBase.preloadComplete = false ∧
    (∀ p ∈ (extractPreloadStages [preGood, preBad, ordStage]).1, p.output_item ≠ none) ∧
    (∃ v : List Stage × List String,
      (execute_preload_stages etBase [preGood, preBad, ordStage] false).1 = .ok v ∧
      (execute_preload_stages etBase [preGood, preBad, ordStage] false).2.1 =
        { etBase with preloadComplete := true } ∧
      ((∃ p ∈ (extractPreloadStages [preGood, preBad, ordStage]).1,
          p.preloadStatus = false) → v.1 = [])) := by
  have hx : (extractPreloadStages [preGood, preBad, ordStage]).1 = [preGood, preBad] := rfl
  have h2 : ∀ p ∈ (extractPreloadStages [preGood, preBad, ordStage]).1,
      p.output_item ≠ none := by
    rw [hx]
    intro p hp
    rcases List.mem_cons.mp hp with rfl | hp2
    · simp [preGood]
    rcases List.mem_cons.mp hp2 with rfl | hp3
    · simp [preBad]
    · exact absurd hp3 (List.not_mem_nil p)
  exact ⟨rfl, h2, C6_preload_failure etBase [preGood, preBad, ordStage] false rfl h2⟩

/-- The frame property of PipelineExpression.execute on the store: a
successful run leaves the dataframe at the caller's reference untouched,
returns a distinct reference, and only the dataframe at that fresh
reference carries the new output column. -/
def execPreservesInput (self : PipelineExpression) (st : Store) (r : Nat)
    (df : DataFrame) : Prop :=
  match self.execute st r with
  | .ok (_, st2, r2, _) =>
    st2.read r = some df ∧ r2 ≠ r ∧
    ∃ v, st2.read r2 = some (df.setColumn self.name (resToColumn df.nRows v))
  | .error _ => True

/-- C9: PipelineExpression.execute copies the incoming dataframe before
mutating, so the caller's dataframe is unchanged and only the returned
(fresh) dataframe carries the new output column. -/
theorem C9_input_not_mutated (self : PipelineExpression) (st : Store) (r : Nat)
    (df : DataFrame) (h : st.read r = some df) (hr : r < st.next) :
    execPreservesInput self st r df := by
  have hne : r ≠ st.next := Nat.ne_of_lt hr
  unfold execPreservesInput PipelineExpression.execute
  rw [h]
  rcases he : evalExpr df (if self.expression.hasHolder then self.expression.substHolders
      else self.expression) with e | v
  · simp [he, Store.alloc]
  · simp only [Store.alloc, Store.write, Store.read, he]
    refine ⟨?_, ?_, v, ?_⟩
    · simp only [Store.read, hne, if_false]
      simpa [hne] using h
    · exact fun hc => hne hc.symm
    · simp

theorem C9_input_not_mutated_witness :
    store0.read 0 = some dfAB ∧ 0 < store0.next ∧
    execPreservesInput ⟨exprDollar, "out", []⟩ store0 0 dfAB :=
  ⟨rfl, by decide,
   C9_input_not_mutated ⟨exprDollar, "out", []⟩ store0 0 dfAB rfl (by decide)⟩

/-- The dispatch core never emits a preload-execution event beyond those
already in its event prefix. -/
theorem core_no_preload (et : EntityType) (s : Stage) (df : DataFrame)
    (sts ets : Option Nat) (ents : Option (List String))
    (register dropna abortF : Bool) (evs0 : List Event)
    (h0 : ∀ m, Event.preloadExec m ∉ evs0) (n : String) :
    Event.preloadExec n ∉
      (executeStageCore et s df sts ets ents register dropna abortF evs0).2 := by
  unfold executeStageCore
  rcases hfo : fullOutcomeOf s df sts ets ents with e | d
  · cases e
    case typeError =>
      rcases h2 : s.execReduced df with e2 | d2 <;> simp only [h2]
      · cases abortF <;> simp [h0 n]
      · rcases h3 : check_data_items_type d2 et.dataItems with bad | d3 <;>
          simp only [h3]
        · simp [h0 n]
        · cases register <;> cases dropna <;> simp [h0 n]
    all_goals cases abortF <;> simp [h0 n]
  · rcases h3 : check_data_items_type d et.dataItems with bad | d3 <;>
      simp only [h3]
    · simp [h0 n]
    · cases register <;> cases dropna <;> simp [h0 n]

/-- _execute_stage never emits a preload-execution event. -/
theorem executeStage_no_preload (et : EntityType) (s : Stage) (df0 : DataFrame)
    (sts ets : Option Nat) (ents : Option (List String))
    (register dropna a0 : Bool) (n : String) :
    Event.preloadExec n ∉
      (execute_stage et s df0 sts ets ents register dropna a0).2 := by
  unfold execute_stage
  rcases hcf : s.conform with _ | f <;> simp only [hcf]
  · exact core_no_preload et s df0 sts ets ents register dropna _ [] (by simp) n
  · rcases hcv : f df0 with e | d
    · cases habort : s.abortOverride.getD a0 <;> simp only [habort]
      · simp only [Bool.false_eq_true, if_false]
        exact core_no_preload et s df0 sts ets ents register dropna _ _ (by simp) n
      · simp
    · exact core_no_preload et s d sts ets ents register dropna _ [] (by simp) n

/-- The ordinary-stage loop never emits a preload-execution event. -/
theorem runStages_no_preload (et : EntityType) (stages : List Stage) :
    ∀ (df : DataFrame) (sts ets : Option Nat) (ents : Option (List String))
      (register dropna : Bool) (n : String),
      Event.preloadExec n ∉
        (runStages et df stages sts ets ents register dropna).2 := by
  induction stages with
  | nil =>
    intro df sts ets ents register dropna n
    simp [runStages]
  | cons s rest ih =>
    intro df sts ets ents register dropna n
    unfold runStages
    by_cases hd : df.isEmpty = true
    · simp [hd]
    · simp only [hd, Bool.false_eq_true, if_false]
      rcases hx : execute_stage et s df sts ets ents register dropna true with ⟨r1, evs⟩
      have h1 := executeStage_no_preload et s df sts ets ents register dropna true n
      rw [hx] at h1
      rcases r1 with e | df2
      · simp only [hx]
        simpa using h1
      · simp only [hx, List.mem_append]
        rintro (hmem | hmem)
        · exact h1 hmem
        · exact ih df2 sts ets ents register dropna n hmem

/-- C8: once the session initial-transform flag is cleared,
CalcPipeline.execute performs no preload execution and no data-source
splitting or resolution: the run reduces to the ordinary-stage loop over
every configured stage against the supplied dataframe (after the null
cleanup of the tail), the entity type is returned unchanged, and the event
log contains no preload execution. -/
theorem C8_skip_when_transform_done (et : EntityType) (stages : List Stage)
    (df : DataFrame) (dropna register : Bool) (sts ets : Option Nat)
    (ents0 : Option (List String))
    (h : et.initialTransform = false) :
    execute_pipeline et stages (some df) dropna sts ets ents0 none register =
      ⟨(runStages et (postNullCleanup dropna et.dropAllNullRows et.systemColumns
          et.customExcludeCols df) stages (resolveStart et sts) (resolveEnd et ets)
          (resolveEntities et ents0) register dropna).1,
       et,
       (runStages et (postNullCleanup dropna et.dropAllNullRows et.systemColumns
          et.customExcludeCols df) stages (resolveStart et sts) (resolveEnd et ets)
          (resolveEntities et ents0) register dropna).2⟩ ∧
    ∀ n, Event.preloadExec n ∉
      (execute_pipeline et stages (some df) dropna sts ets ents0 none register).events := by
  have hmain : execute_pipeline et stages (some df) dropna sts ets ents0 none register =
      ⟨(runStages et (postNullCleanup dropna et.dropAllNullRows et.systemColumns
          et.customExcludeCols df) stages (resolveStart et sts) (resolveEnd et ets)
          (resolveEntities et ents0) register dropna).1,
       et,
       (runStages et (postNullCleanup dropna et.dropAllNullRows et.systemColumns
          et.customExcludeCols df) stages (resolveStart et sts) (resolveEnd et ets)
          (resolveEntities et ents0) register dropna).2⟩ := by
    simp only [execute_pipeline, h, Bool.false_eq_true, if_false, pipelineTail,
      Option.getD_none, List.foldl_nil]
    rcases hr : runStages et (postNullCleanup dropna et.dropAllNullRows et.systemColumns
        et.customExcludeCols df) stages (resolveStart et sts) (resolveEnd et ets)
        (resolveEntities et ents0) register dropna with ⟨r1, r2⟩
    rcases r1 with e | dOK <;> simp [hr]
  refine ⟨hmain, fun n => ?_⟩
  rw [hmain]
  exact runStages_no_preload et stages _ _ _ _ _ _ n

/-- An entity type whose initial transform is already complete. -/
def etDone : EntityType := { etBase with initialTransform := false }

theorem C8_skip_when_transform_done_witness :
    etDone.initialTransform = false ∧
    (execute_pipeline etDone [ordStage, srcStageA] (some dfAB) false none none none none false =
      ⟨(runStages etDone (postNullCleanup false etDone.dropAllNullRows etDone.systemColumns
          etDone.customExcludeCols dfAB) [ordStage, srcStageA] (resolveStart etDone none)
          (resolveEnd etDone none) (resolveEntities etDone none) false false).1,
       etDone,
       (runStages etDone (postNullCleanup false etDone.dropAllNullRows etDone.systemColumns
          etDone.customExcludeCols dfAB) [ordStage, srcStageA] (resolveStart etDone none)
          (resolveEnd etDone none) (resolveEntities etDone none) false false).2⟩ ∧
     ∀ n, Event.preloadExec n ∉
       (execute_pipeline etDone [ordStage, srcStageA] (some dfAB) false none none none none false).events) :=
  ⟨rfl, C8_skip_when_transform_done etDone [ordStage, srcStageA] dfAB false false none none none rfl⟩

/-- A one-row dataframe whose only non-key column holds +infinity; the key
column id is a system column. -/
def dfInfRow : DataFrame := ⟨[("id", [.str "d1"]), ("x", [.inf])]⟩

/-- The null cleanup with only the drop-all-null-rows parameter enabled
(the separate dropna flag off), system column id excluded. -/
def c7Run : DataFrame := postNullCleanup false true ["id"] [] dfInfRow

/-- C7 counterexample: with null cleanup enabled through the
drop-all-null-rows parameter, a +infinity cell is not normalized to null —
the dataframe passes through unchanged and its row survives, although the
claim says the infinity is first normalized to null and the then-all-null
row is dropped.  Infinity normalization happens only under the separate
dropna flag, which drops any-null rows rather than all-null rows. -/
theorem C7_counterexample :
    c7Run = dfInfRow ∧
    c7Run.getCol "x" = some [PyVal.inf] ∧
    c7Run.nRows = 1 := by decide

/-- find? over a name-preserving column transformation commutes with the
transformation. -/
theorem find?_name_map (g : String × List PyVal → List PyVal) (c : String) :
    ∀ cols : List (String × List PyVal),
      (cols.map (fun p => (p.1, g p))).find? (fun p => p.1 == c) =
        (cols.find? (fun p => p.1 == c)).map (fun p => (p.1, g p)) := by
  intro cols
  induction cols with
  | nil => rfl
  | cons p l ih =>
    by_cases hp : (p.1 == c) = true
    · simp [List.find?_cons, hp]
    · simp only [Bool.not_eq_true] at hp
      simp [List.find?_cons, hp, ih]

/-- Row filtering preserves the column list. -/
theorem columns_filterRows (df : DataFrame) (keep : Nat → Bool) :
    (df.filterRows keep).columns = df.columns := by
  unfold DataFrame.filterRows DataFrame.columns
  rw [List.map_map]
  rfl

/-- Each column of a row-filtered dataframe is the original column values
taken at exactly the kept row indices. -/
theorem getCol_filterRows (df : DataFrame) (keep : Nat → Bool) (c : String)
    (vs : List PyVal) (h : df.getCol c = some vs) :
    (df.filterRows keep).getCol c =
      some (((List.range df.nRows).filter keep).filterMap (fun i => vs[i]?)) := by
  unfold DataFrame.getCol DataFrame.filterRows
  rw [find?_name_map
    (fun p => ((List.range df.nRows).filter keep).filterMap (fun i => p.2[i]?)) c df.cols]
  unfold DataFrame.getCol at h
  rcases hf : df.cols.find? (fun p => p.1 == c) with _ | q
  · rw [hf] at h; cases h
  · rw [hf] at h
    simp only [Option.map] at h ⊢
    cases h
    rw [hf]

/-- C7 amended: with the drop-all-null-rows parameter enabled (and the
separate dropna flag off), the column list is preserved and every column —
system and key columns included — is filtered by one row mask that keeps
exactly the rows holding a non-null value in some non-excluded column, so
excluded (system/key) columns are never counted toward the all-null test
and kept rows carry their original values verbatim (no infinity
normalization).  Normalizing infinities to null is done only by the
separate dropna flag, which then drops every row containing any null. -/
theorem C7_all_null_drop_characterized (df : DataFrame) (sys excl : List String) :
    (postNullCleanup false true sys excl df).columns = df.columns ∧
    (∀ c vs, df.getCol c = some vs →
      (postNullCleanup false true sys excl df).getCol c =
        some (((List.range df.nRows).filter
            (fun i => (df.columns.filter (fun x => !((sys ++ excl).contains x))).any
              (fun cc => !(df.cellIsNull cc i)))).filterMap (fun i => vs[i]?))) ∧
    postNullCleanup true false sys excl df = (df.replaceInfNan).dropAnyNull := by
  refine ⟨?_, ?_, rfl⟩
  · exact columns_filterRows df _
  · intro c vs h
    exact getCol_filterRows df _ c vs h

theorem C7_all_null_drop_characterized_witness :
    (postNullCleanup false true ["id"] [] dfInfRow).columns = dfInfRow.columns ∧
    dfInfRow.getCol "x" = some [PyVal.inf] ∧
    (postNullCleanup false true ["id"] [] dfInfRow).getCol "x" =
      some (((List.range dfInfRow.nRows).filter
          (fun i => (dfInfRow.columns.filter
              (fun x => !(((["id"] : List String) ++ ([] : List String)).contains x))).any
            (fun cc => !(dfInfRow.cellIsNull cc i)))).filterMap
        (fun i => [PyVal.inf][i]?)) :=
  ⟨(C7_all_null_drop_characterized dfInfRow ["id"] []).1,
   by decide,
   (C7_all_null_drop_characterized dfInfRow ["id"] []).2.1 "x" [PyVal.inf] (by decide)⟩

/-- The irreconcilable triple an item contributes, computed independently
against a fixed dataframe: none when the item is absent from the dataframe
or its coercion succeeds. -/
def itemFailureSpec (df : DataFrame) (it : DataItem) : Option (String × String × String) :=
  (df.getCol it.name).bind (fun col =>
    (reconcileColumn col it.columnType).2.map (fun dn => (it.name, dn, it.columnType)))

/-- The aggregate invalid-item list, each item judged against the original
dataframe. -/
def invalidSpec (df : DataFrame) (items : List DataItem) :
    List (String × String × String) :=
  items.filterMap (itemFailureSpec df)

/-- The declarative per-column result of reconciliation: the first declared
item carrying a column's name determines its coercion, every other column
is untouched. -/
def colSpec (df : DataFrame) (items : List DataItem) (c : String) :
    Option (List PyVal) :=
  match items.find? (fun it => it.name == c) with
  | some it =>
    (df.getCol c).map (fun col =>
      match (reconcileColumn col it.columnType).1 with
      | some col2 => col2
      | none => col)
  | none => df.getCol c

/-- find? skips a prefix on which it fails. -/
theorem find?_append_left_none {α : Type} (p : α → Bool) (l2 : List α) :
    ∀ l1 : List α, l1.find? p = none → (l1 ++ l2).find? p = l2.find? p := by
  intro l1
  induction l1 with
  | nil => intro _; rfl
  | cons x l ih =>
    intro h
    simp only [List.find?_cons, List.cons_append] at h ⊢
    cases hp : p x
    · simp only [hp] at h ⊢
      exact ih h
    · simp only [hp] at h
      cases h

/-- find? ignores a suffix once it succeeds on the prefix. -/
theorem find?_append_left_some {α : Type} (p : α → Bool) (l2 : List α) (a : α) :
    ∀ l1 : List α, l1.find? p = some a → (l1 ++ l2).find? p = some a := by
  intro l1
  induction l1 with
  | nil => intro h; cases h
  | cons x l ih =>
    intro h
    simp only [List.find?_cons, List.cons_append] at h ⊢
    cases hp : p x
    · simp only [hp] at h ⊢
      exact ih h
    · simp only [hp] at h ⊢
      exact h

/-- Setting a column makes it hold exactly the assigned values. -/
theorem getCol_setColumn_self (df : DataFrame) (c : String) (vs : List PyVal) :
    (df.setColumn c vs).getCol c = some vs := by
  unfold DataFrame.setColumn
  by_cases hs : (df.cols.find? (fun p => p.1 == c)).isSome
  · rw [if_pos hs]
    show Option.map Prod.snd (List.find? (fun p => p.1 == c)
      (df.cols.map (fun p => (p.1, if p.1 == c then vs else p.2)))) = some vs
    rw [find?_name_map (fun p => if p.1 == c then vs else p.2) c df.cols]
    rcases hf : df.cols.find? (fun p => p.1 == c) with _ | q
    · rw [hf] at hs; cases hs
    · have hq := List.find?_some hf
      rw [hf]
      simp [Option.map, hq]
  · rw [if_neg hs]
    have hn : df.cols.find? (fun p => p.1 == c) = none :=
      Option.not_isSome_iff_eq_none.mp hs
    show Option.map Prod.snd (List.find? (fun p => p.1 == c)
      (df.cols ++ [(c, vs)])) = some vs
    rw [find?_append_left_none _ _ df.cols hn]
    simp [List.find?_cons]

/-- Setting a column leaves every other column unchanged. -/
theorem getCol_setColumn_ne (df : DataFrame) (c c2 : String) (vs : List PyVal)
    (h : c2 ≠ c) : (df.setColumn c vs).getCol c2 = df.getCol c2 := by
  unfold DataFrame.setColumn
  by_cases hs : (df.cols.find? (fun p => p.1 == c)).isSome
  · rw [if_pos hs]
    show Option.map Prod.snd (List.find? (fun p => p.1 == c2)
      (df.cols.map (fun p => (p.1, if p.1 == c then vs else p.2)))) = df.getCol c2
    rw [find?_name_map (fun p => if p.1 == c then vs else p.2) c2 df.cols]
    unfold DataFrame.getCol
    rcases hf : df.cols.find? (fun p => p.1 == c2) with _ | q
    · rw [hf]; rfl
    · have hq2 : q.1 = c2 := by simpa using List.find?_some hf
      have hqc : (q.1 == c) = false := by rw [hq2]; simp [h]
      rw [hf]
      simp [Option.map, hqc]
  · rw [if_neg hs]
    show Option.map Prod.snd (List.find? (fun p => p.1 == c2)
      (df.cols ++ [(c, vs)])) = df.getCol c2
    unfold DataFrame.getCol
    rcases hf : df.cols.find? (fun p => p.1 == c2) with _ | q
    · rw [find?_append_left_none _ _ df.cols hf, hf]
      have hcc : (((c, vs) : String × List PyVal).1 == c2) = false := by
        simp
        exact fun hcc => h hcc.symm
      simp [List.find?_cons, hcc]
    · rw [find?_append_left_some _ _ q df.cols hf, hf]

/-- One reconciliation step touches no column other than its item's. -/
theorem processItem_fst_ne (df : DataFrame) (it : DataItem) (c : String)
    (h : c ≠ it.name) : (processItem df it).1.getCol c = df.getCol c := by
  unfold processItem
  rcases hg : df.getCol it.name with _ | col
  · rfl
  · rcases hr : (reconcileColumn col it.columnType).1 with _ | col2
    · simp only [hr]
    · simp only [hr]
      exact getCol_setColumn_ne df it.name c col2 h

/-- One reconciliation step reads only its item's column, so its recorded
failure equals the specification failure on any dataframe agreeing there. -/
theorem processItem_snd_spec (df : DataFrame) (it : DataItem) :
    (processItem df it).2 = itemFailureSpec df it := by
  unfold processItem itemFailureSpec
  rcases df.getCol it.name with _ | col <;> rfl

/-- After one reconciliation step the item's own column holds the coerced
values when an assignment happened, and the original values otherwise. -/
theorem processItem_fst_self (df : DataFrame) (it : DataItem) :
    (processItem df it).1.getCol it.name =
      (df.getCol it.name).map (fun col =>
        match (reconcileColumn col it.columnType).1 with
        | some col2 => col2
        | none => col) := by
  unfold processItem
  rcases hg : df.getCol it.name with _ | col
  · simp [hg]
  · simp only [Option.map]
    rcases hr : (reconcileColumn col it.columnType).1 with _ | col2
    · simp only [hr]
      exact hg
    · simp only [hr]
      exact getCol_setColumn_self df it.name col2

/-- Characterization of the declared-item scan: starting from any dataframe
agreeing with a reference `df0` on every declared column, and with distinct
declared names, the collected invalid list is exactly the specification
list judged against `df0`, and each column of the final dataframe is
determined by the first declared item of its name, independently of the
other items. -/
theorem checkLoop_char (items : List DataItem) :
    ∀ (df0 df : DataFrame) (acc : List (String × String × String)),
      (items.map DataItem.name).Nodup →
      (∀ n ∈ items.map DataItem.name, df.getCol n = df0.getCol n) →
      (checkItemsLoop df items acc).2 = acc ++ invalidSpec df0 items ∧
      ∀ c, (checkItemsLoop df items acc).1.getCol c =
        (match items.find? (fun it => it.name == c) with
         | some it => (df0.getCol c).map (fun col =>
             match (reconcileColumn col it.columnType).1 with
             | some col2 => col2
             | none => col)
         | none => df.getCol c) := by
  induction items with
  | nil =>
    intro df0 df acc _ _
    constructor
    · simp [checkItemsLoop, invalidSpec]
    · intro c
      simp [checkItemsLoop, List.find?]
  | cons it rest ih =>
    intro df0 df acc hnodup hagree
    have hagree_it : df.getCol it.name = df0.getCol it.name := hagree it.name (by simp)
    have hnodup2 : (∀ x ∈ rest, ¬x.name = it.name) ∧ (rest.map DataItem.name).Nodup := by
      simpa using hnodup
    have hnd1 : it.name ∉ rest.map DataItem.name := by
      intro hmem
      rcases List.mem_map.mp hmem with ⟨x, hx, hxn⟩
      exact hnodup2.1 x hx hxn
    have hnd2 : (rest.map DataItem.name).Nodup := hnodup2.2
    have hstep2 : (processItem df it).2 = itemFailureSpec df0 it := by
      rw [processItem_snd_spec]
      unfold itemFailureSpec
      rw [hagree_it]
    have hagree2 : ∀ n ∈ rest.map DataItem.name,
        (processItem df it).1.getCol n = df0.getCol n := by
      intro n hn
      have hne : n ≠ it.name := fun hcon => hnd1 (hcon ▸ hn)
      rw [processItem_fst_ne df it n hne]
      exact hagree n (by simp [hn])
    have hloop : checkItemsLoop df (it :: rest) acc =
        checkItemsLoop (processItem df it).1 rest (acc ++ (processItem df it).2.toList) := rfl
    obtain ⟨ih2, ih1⟩ := ih df0 (processItem df it).1
      (acc ++ (processItem df it).2.toList) hnd2 hagree2
    constructor
    · rw [hloop, ih2, hstep2]
      unfold invalidSpec
      rw [List.filterMap_cons]
      rcases hspec : itemFailureSpec df0 it with _ | t
      · simp
      · simp
    · intro c
      rw [hloop, ih1 c]
      by_cases hc : it.name = c
      · subst hc
        have hhead : (it :: rest).find? (fun it2 => it2.name == it.name) = some it := by
          simp [List.find?_cons]
        have hrest : rest.find? (fun it2 => it2.name == it.name) = none := by
          rw [List.find?_eq_none]
          intro x hx
          simp only [beq_iff_eq]
          intro hxn
          exact hnd1 (hxn ▸ List.mem_map_of_mem DataItem.name hx)
        rw [hhead, hrest]
        rw [processItem_fst_self, hagree_it]
      · have hitc : (it.name == c) = false := by simp [hc]
        have hcons : (it :: rest).find? (fun it2 => it2.name == c) =
            rest.find? (fun it2 => it2.name == c) := by
          simp [List.find?_cons, hitc]
        rw [hcons]
        rcases hfr : rest.find? (fun it2 => it2.name == c) with _ | it2
        · rw [hfr]
          exact processItem_fst_ne df it c (fun hcc => hc hcc.symm)
        · rw [hfr]

/-- C5: with distinct declared item names, the type-reconciliation scan
attempts one best-effort coercion per mismatched declared item and replaces
coerced columns in place — each final column is exactly what its own
declared item dictates (colSpec) — and after the whole scan it raises a
single aggregate error listing every (item, actual dtype, declared type)
triple whose coercion failed, while raising nothing when every coercion
succeeds. -/
theorem C5_type_reconciliation (df : DataFrame) (items : List DataItem)
    (h : (items.map DataItem.name).Nodup) :
    (invalidSpec df items = [] →
      check_data_items_type df items = .ok (checkItemsLoop df items []).1 ∧
      ∀ c, (checkItemsLoop df items []).1.getCol c = colSpec df items c) ∧
    (invalidSpec df items ≠ [] →
      check_data_items_type df items = .error (invalidSpec df items)) := by
  obtain ⟨h2, h1⟩ := checkLoop_char items df df [] h (fun n _ => rfl)
  constructor
  · intro hinv
    constructor
    · unfold check_data_items_type
      simp [h2, hinv]
    · intro c
      rw [h1 c]
      unfold colSpec
      rfl
  · intro hinv
    unfold check_data_items_type
    rcases hx : invalidSpec df items with _ | ⟨t, ts⟩
    · exact absurd hx hinv
    · rw [hx] at h2
      simp [h2]

/-- A dataframe whose declared NUMBER column x holds a non-numeric string
while y is genuinely numeric. -/
def dfBadNum : DataFrame := ⟨[("x", [.str "abc"]), ("y", [.int 1])]⟩

/-- Both columns declared NUMBER. -/
def itemsNum : List DataItem := [⟨"x", "NUMBER"⟩, ⟨"y", "NUMBER"⟩]

theorem C5_type_reconciliation_witness :
    (itemsNum.map DataItem.name).Nodup ∧
    invalidSpec dfBadNum itemsNum = [("x", "object", "NUMBER")] ∧
    ((invalidSpec dfBadNum itemsNum = [] →
      check_data_items_type dfBadNum itemsNum =
        .ok (checkItemsLoop dfBadNum itemsNum []).1 ∧
      ∀ c, (checkItemsLoop dfBadNum itemsNum []).1.getCol c =
        colSpec dfBadNum itemsNum c) ∧
    (invalidSpec dfBadNum itemsNum ≠ [] →
      check_data_items_type dfBadNum itemsNum =
        .error (invalidSpec dfBadNum itemsNum))) :=
  ⟨by decide, by decide, C5_type_reconciliation dfBadNum itemsNum (by decide)⟩
